import Mathlib

/-!
# Verification of the NCAA coaching-staff scraper (src/web_scraper.py)

Shallow embedding of the link-classification and coach-record-extraction
engine of `web_scraper.py`.  HTML documents are modelled as already-parsed
trees (`Node`), network effects as explicit oracles (maps from URL or
attempt number to response), and Python exceptions as `Except`/`Option`
results.  Each definition mirrors one Python function of the source; the
doc comments name the mirrored function.  String primitives are
implemented over `List Char` so that every definition evaluates inside the
kernel.
-/

namespace Scraper

/-! ## String primitives (kernel-computable models of the Python ones) -/

/-- Is `pre` a prefix of `l`? -/
def isPre : List Char → List Char → Bool
  | [], _ => true
  | _ :: _, [] => false
  | a :: as, b :: bs => a == b && isPre as bs

/-- Does `needle` occur contiguously in `hay`? -/
def occurs (needle : List Char) : List Char → Bool
  | [] => needle.isEmpty
  | c :: rest => isPre needle (c :: rest) || occurs needle rest

/-- Python's `needle in haystack` substring test. -/
def pyIn (needle hay : String) : Bool := occurs needle.data hay.data

/-- Python's `s.lower()` (ASCII, which is all this scraper compares). -/
def pyLower (s : String) : String := String.mk (s.data.map Char.toLower)

/-- Strip leading/trailing whitespace: Python's `s.strip()`. -/
def trimChars (l : List Char) : List Char :=
  ((l.dropWhile Char.isWhitespace).reverse.dropWhile Char.isWhitespace).reverse

def pyStrip (s : String) : String := String.mk (trimChars s.data)

def strEmpty (s : String) : Bool := s.data.isEmpty

def startsWithStr (s pre : String) : Bool := isPre pre.data s.data

/-- Concatenation of a list of strings. -/
def catData : List String → List Char
  | [] => []
  | s :: rest => s.data ++ catData rest

def concatStrs (l : List String) : String := String.mk (catData l)

/-- Python's `s.split('?')[0]` as in `link.split('?')[0]`: everything
before the first `?` (the whole string when there is none). -/
def stripQuery (s : String) : String :=
  String.mk (s.data.takeWhile (fun c => c != '?'))

/-- Split at the first occurrence of `sep`, if any. -/
def splitFirst (sep : List Char) : List Char → Option (List Char × List Char)
  | [] => if sep.isEmpty then some ([], []) else none
  | c :: rest =>
    if isPre sep (c :: rest) then some ([], (c :: rest).drop sep.length)
    else match splitFirst sep rest with
      | some (pre, post) => some (c :: pre, post)
      | none => none

/-- Hostname part of a URL (model of `urlparse(u).netloc` for the
scheme-qualified URLs this code builds). -/
def netlocOf (u : String) : String :=
  match splitFirst "://".data u.data with
  | some (_, post) => String.mk (post.takeWhile (fun c => c != '/'))
  | none => ""

/-- Model of `scheme://host` part of a URL. -/
def originOf (u : String) : String :=
  match splitFirst "://".data u.data with
  | some (pre, post) =>
    String.mk (pre ++ "://".data ++ post.takeWhile (fun c => c != '/'))
  | none => u

/-- Base URL truncated just after its last `/` (used for joining hrefs that
are neither absolute nor root-relative). -/
def dirOf (u : String) : String :=
  let kept := u.data.reverse.dropWhile (fun c => c != '/')
  if kept.isEmpty then u ++ "/" else String.mk kept.reverse

/-- Model of `urllib.parse.urljoin` restricted to the shapes of href this
scraper produces: absolute URLs are kept, root-relative paths are joined to
the base's origin, other relative paths to the base's directory. -/
def urljoin (base href : String) : String :=
  if pyIn "://" href then href
  else if startsWithStr href "/" then originOf base ++ href
  else dirOf base ++ href

/-- Model of `if not url.startswith(('http://', 'https://')): url = 'https://' + url`. -/
def ensureHttps (u : String) : String :=
  if startsWithStr u "http://" || startsWithStr u "https://" then u
  else "https://" ++ u

/-- Regex helper: `\d{1,2}` followed by `sep`, matched at the head with
backtracking (so: digit-sep, or digit-digit-sep); returns the rest. -/
def dd (sep : Char) : List Char → Option (List Char)
  | a :: b :: c :: rest =>
    if a.isDigit && b.isDigit && c == sep then some rest
    else if a.isDigit && b == sep then some (c :: rest)
    else none
  | [a, b] => if a.isDigit && b == sep then some [] else none
  | _ => none

/-- Match `/\d{4} sep \d{1,2} sep \d{1,2}/` at the head of the character
list (`sep` is `/` for `/2019/7/23/` and `-` for `/2019-7-23/`). -/
def dateHere (sep : Char) (l : List Char) : Bool :=
  match l with
  | '/' :: a :: b :: c :: d :: s :: rest =>
    a.isDigit && b.isDigit && c.isDigit && d.isDigit && s == sep &&
      (match dd sep rest with
       | some r2 => (dd '/' r2).isSome
       | none => false)
  | _ => false

/-- Model of `re.search`: does the pattern match at any position? -/
def searchFrom (p : List Char → Bool) : List Char → Bool
  | [] => p []
  | c :: rest => p (c :: rest) || searchFrom p rest

/-- The date-path exclusion of `find_coaches_or_roster_link`:
`re.search(r'/\d{4}/\d{1,2}/\d{1,2}/', href) or re.search(r'/\d{4}-\d{1,2}-\d{1,2}/', href)`. -/
def hasDatePattern (href : String) : Bool :=
  searchFrom (dateHere '/') href.data || searchFrom (dateHere '-') href.data

/-- Python's `'word'.title()` for a single word: first letter upper-cased,
the rest lower-cased. -/
def pyTitleWord (s : String) : String :=
  match s.data with
  | [] => ""
  | c :: rest => String.mk (c.toUpper :: rest.map Char.toLower)

/-! ## HTML document model

Pages reach every scraping function already parsed by BeautifulSoup; we
model the parsed document as a tree of elements and text nodes and the
BeautifulSoup operations the source uses (`find_all`, `find`, `get_text`,
`stripped_strings`, attribute access) as tree traversals.  Children are a
mutually-inductive list type so that all traversals are structurally
recursive and evaluate inside the kernel. -/

mutual
inductive Node where
  | text : String → Node
  | elem : String → List (String × String) → NodeList → Node
deriving Repr
inductive NodeList where
  | nil : NodeList
  | cons : Node → NodeList → NodeList
deriving Repr
end

/-- Build a `NodeList` from a list literal. -/
def nlist : List Node → NodeList
  | [] => .nil
  | n :: rest => .cons n (nlist rest)

mutual
/-- The node itself (when it is an element) followed by its element
descendants, in document (pre-)order — the order `find_all` traverses. -/
def selfDescElems : Node → List Node
  | .text _ => []
  | .elem t a cs => Node.elem t a cs :: descElemsL cs
def descElemsL : NodeList → List Node
  | .nil => []
  | .cons n rest => selfDescElems n ++ descElemsL rest
end

mutual
/-- All text-node strings under (and including) a node, in document order. -/
def textsN : Node → List String
  | .text s => [s]
  | .elem _ _ cs => textsL cs
def textsL : NodeList → List String
  | .nil => []
  | .cons n rest => textsN n ++ textsL rest
end

def Node.children : Node → NodeList
  | .text _ => .nil
  | .elem _ _ cs => cs

def Node.tag : Node → String
  | .text _ => ""
  | .elem t _ _ => t

/-- Proper element descendants of a node (what `n.find_all(...)` ranges over). -/
def descElems (n : Node) : List Node := descElemsL n.children

def texts (n : Node) : List String := textsN n

/-- Model of `n.get_text()`: concatenation of all descendant strings. -/
def getText (n : Node) : String := concatStrs (texts n)

/-- Model of `n.get_text(strip=True)`: each string stripped, then concatenated. -/
def getTextStrip (n : Node) : String := concatStrs ((texts n).map pyStrip)

/-- Model of `[t.strip() for t in n.stripped_strings]`: stripped, whitespace-only
strings dropped. -/
def strippedStrings (n : Node) : List String :=
  ((texts n).map pyStrip).filter (fun s => !strEmpty s)

/-- Model of `n.get(key)` / `n[key]` attribute lookup. -/
def getAttr (n : Node) (key : String) : Option String :=
  match n with
  | .text _ => none
  | .elem _ attrs _ => (attrs.find? (fun p => p.1 == key)).map Prod.snd

def classString (n : Node) : String := (getAttr n "class").getD ""

/-- Split a character list at separators satisfying `p`. -/
def splitChars (p : Char → Bool) : List Char → List (List Char)
  | [] => [[]]
  | c :: rest =>
    let r := splitChars p rest
    if p c then [] :: r
    else match r with
      | h :: t => (c :: h) :: t
      | [] => [[c]]

def classes (n : Node) : List String :=
  (((splitChars (fun c => c == ' ')) (classString n).data).map String.mk).filter
    (fun s => !strEmpty s)

/-- bs4 `class_='name'`: exact match against one of the element's classes. -/
def hasClass (n : Node) (c : String) : Bool := (classes n).contains c

/-- bs4 `class_=lambda x: x and any(w in x.lower() for w in words)`: the
class attribute must be present and contain one of the (space-free)
keywords as a substring. -/
def classPred (n : Node) (words : List String) : Bool :=
  match getAttr n "class" with
  | none => false
  | some s => words.any (fun w => pyIn w (pyLower s))

/-- Model of `n.find_all(tags)`. -/
def findAllTags (n : Node) (tags : List String) : List Node :=
  (descElems n).filter (fun e => tags.contains e.tag)

/-- Model of `n.find(tag)`. -/
def findFirstTag (n : Node) (tag : String) : Option Node :=
  (descElems n).find? (fun e => e.tag == tag)

/-- Model of `n.find(tags)` over a list of candidate tag names. -/
def findFirstTags (n : Node) (tags : List String) : Option Node :=
  (descElems n).find? (fun e => tags.contains e.tag)

/-- Model of `n.find('a', href=lambda x: x and marker in x)`. -/
def findAnchorHref (n : Node) (marker : String) : Option Node :=
  (descElems n).find? (fun e => e.tag == "a" &&
    (match getAttr e "href" with
     | some h => pyIn marker h
     | none => false))

example : pyIn "b" "abc" = true := by decide
example : pyIn "z" "abc" = false := by decide
example : pyLower "AbC" = "abc" := by decide
example : pyStrip "  x y " = "x y" := by decide
example : stripQuery "a?b=c" = "a" := by decide
example : urljoin "https://x.edu/a/b" "/c" = "https://x.edu/c" := by decide
example : urljoin "https://x.edu" "http://y.org/z" = "http://y.org/z" := by decide
example : ensureHttps "x.edu" = "https://x.edu" := by decide
example : netlocOf "https://x.edu/a" = "x.edu" := by decide
example : hasDatePattern "/news/2019/7/23/story" = true := by decide
example : hasDatePattern "/2019-12-3/x" = true := by decide
example : hasDatePattern "/roster" = false := by decide
example : pyTitleWord "track" = "Track" := by decide
example :
    (descElems (Node.elem "div" [] (nlist [Node.text "x",
      Node.elem "a" [("href", "/r")] (nlist [Node.text "Roster"])]))).map Node.tag =
      ["a"] := by decide
example :
    getTextStrip (Node.elem "td" [] (nlist [Node.text " Jane ",
      Node.elem "b" [] (nlist [Node.text "Doe"])])) = "JaneDoe" := by decide

/-- Python's `s.replace(pat, rep)` (all occurrences).  The fuel argument —
instantiated with the input length, an upper bound on the number of steps —
keeps the recursion structural. -/
def replaceFuel (pat rep : List Char) : Nat → List Char → List Char
  | 0, l => l
  | _, [] => []
  | fuel + 1, c :: rest =>
    if !pat.isEmpty && isPre pat (c :: rest) then
      rep ++ replaceFuel pat rep fuel ((c :: rest).drop pat.length)
    else c :: replaceFuel pat rep fuel rest

def pyReplace (pat rep s : String) : String :=
  String.mk (replaceFuel pat.data rep.data s.data.length s.data)

example : pyReplace "mailto:" "" "mailto:jd@x.edu" = "jd@x.edu" := by decide

/-! ## Coach records

`CoachRecord` as built by `extract_coach_listings_bs4` /
`scrape_coach_roster`; Python's `None` and absent dict keys are both
modelled as `none`. -/

structure Coach where
  name : Option String
  position : Option String
  sport : Option String
  profile_url : Option String
  email : Option String
  phone : Option String
  image_url : Option String
  school_id : Option String
  school_name : Option String
  division : Option String
  conference : Option String
deriving Repr, DecidableEq

/-- Python truthiness of an optional string (`if name:`): present and
non-empty. -/
def truthyStr : Option String → Bool
  | some s => !strEmpty s
  | none => false

/-! ## Coach record extractor (`extract_coach_listings_bs4`)

Strategy 1: sidearm tables. -/

def isSidearmTable (e : Node) : Bool := e.tag == "table" && hasClass e "sidearm-table"

def isSidearmRow (e : Node) : Bool := e.tag == "tr" && hasClass e "sidearm-coaches-coach"

/-- Name cell (`cells[1]`) of a sidearm row: name and profile URL.  The
outer `none` models the `KeyError` raised by `name_link['href']` when the
name anchor has no href — the row-level `try/except` then skips the row. -/
def nameProfile (base : String) (cells : List Node) : Option (Option String × Option String) :=
  match cells[1]? with
  | none => some (none, none)
  | some nameCell =>
    match findFirstTag nameCell "a" with
    | some link =>
      match getAttr link "href" with
      | none => none
      | some h => some (some (getTextStrip link), some (urljoin base h))
    | none => some (some (getTextStrip nameCell), none)

/-- Model of `cells[0]`: image URL from the first cell's `<img src>`. -/
def sidearmImage (cells : List Node) : Option String :=
  match cells[0]? with
  | some c0 =>
    match findFirstTag c0 "img" with
    | some img => getAttr img "src"
    | none => none
  | none => none

/-- Model of `cells[2].get_text(strip=True) if len(cells) > 2 else None`. -/
def sidearmPosition (cells : List Node) : Option String := (cells[2]?).map getTextStrip

/-- Model of `cells[3]`: email from a `mailto:` anchor. -/
def sidearmEmail (cells : List Node) : Option String :=
  match cells[3]? with
  | some c3 =>
    match findAnchorHref c3 "mailto:" with
    | some link => (getAttr link "href").map (pyReplace "mailto:" "")
    | none => none
  | none => none

/-- Model of `cells[4]`: the `tel:` anchor's text if present, else the cell's text
(possibly the empty string). -/
def sidearmPhone (cells : List Node) : Option String :=
  match cells[4]? with
  | some c4 =>
    match findAnchorHref c4 "tel:" with
    | some link => some (getTextStrip link)
    | none => some (getTextStrip c4)
  | none => none

/-- One `tr.sidearm-coaches-coach` row (the body of the row loop in
strategy 1).  Returns `none` when the row is skipped: either its name
anchor has no href (exception path) or no name was extracted
(`if name:` guard). -/
def parseSidearmRow (base : String) (row : Node) : Option Coach :=
  match nameProfile base (findAllTags row ["td", "th"]) with
  | none => none
  | some (name, profile_url) =>
    if truthyStr name then
      some { name := name, position := sidearmPosition (findAllTags row ["td", "th"]),
             sport := some "Football", profile_url := profile_url,
             email := sidearmEmail (findAllTags row ["td", "th"]),
             phone := sidearmPhone (findAllTags row ["td", "th"]),
             image_url := sidearmImage (findAllTags row ["td", "th"]),
             school_id := none, school_name := none, division := none, conference := none }
    else none

def flatMapL (f : α → List β) : List α → List β
  | [] => []
  | a :: rest => f a ++ flatMapL f rest

/-- Strategy 1 of `extract_coach_listings_bs4`: every
`tr.sidearm-coaches-coach` row of every `table.sidearm-table`. -/
def sidearmCoaches (soup : Node) (base : String) : List Coach :=
  flatMapL
    (fun table => ((descElems table).filter isSidearmRow).filterMap (parseSidearmRow base))
    ((descElems soup).filter isSidearmTable)

/-! Strategy 2: common container CSS selectors; strategy 3: generic scan. -/

inductive Selector where
  | cls (c : String)
  | tagCls (t c : String)
deriving Repr

def runSelector (soup : Node) : Selector → List Node
  | .cls c => (descElems soup).filter (fun e => hasClass e c)
  | .tagCls t c => (descElems soup).filter (fun e => e.tag == t && hasClass e c)

def container_selectors : List Selector :=
  [.cls "coach-card", .cls "staff-card", .cls "directory-item", .cls "staff-member",
   .cls "coach-profile", .cls "staff-profile", .cls "bio-card", .cls "personnel-card",
   .cls "coach", .cls "staff", .cls "directory-listing", .cls "staff-listing",
   .tagCls "div" "coach", .tagCls "div" "staff", .tagCls "div" "directory",
   .tagCls "div" "personnel"]

/-- First selector in order with at least one hit (the selector loop). -/
def firstSelectorHit (soup : Node) : List Selector → List Node
  | [] => []
  | s :: rest =>
    let es := runSelector soup s
    if es.isEmpty then firstSelectorHit soup rest else es

/-- Strategy 3 candidates: block elements whose text mentions coach/staff
and a contact hint. -/
def genericCoachElements (soup : Node) : List Node :=
  ((descElems soup).filter (fun e => ["div", "li", "article"].contains e.tag)).filter
    (fun e =>
      let t := pyLower (getText e)
      (pyIn "coach" t || pyIn "staff" t) && (pyIn "email" t || pyIn "phone" t || pyIn "@" t))

def position_keywords : List String :=
  ["head coach", "assistant coach", "coach", "director", "coordinator"]

def sport_keywords : List String :=
  ["basketball", "football", "soccer", "baseball", "softball",
   "volleyball", "tennis", "golf", "track", "swimming"]

/-- Name extraction of strategies 2/3: first heading-like element's text
(stripped); when missing or empty, the first stripped string. -/
def elemName (el : Node) : Option String :=
  let name0 : Option String :=
    match findFirstTags el ["h1", "h2", "h3", "h4", "h5", "h6", "strong", "b"] with
    | some ne => some (pyStrip (getText ne))
    | none => none
  if truthyStr name0 then name0
  else
    match (strippedStrings el).head? with
    | some t => some t
    | none => name0

/-- First `p`/`div`/`span` child text matching a position keyword. -/
def elemPosition (el : Node) : Option String :=
  ((findAllTags el ["p", "div", "span"]).find? (fun p =>
    position_keywords.any (fun k => pyIn k (pyStrip (pyLower (getText p)))))).map
    (fun p => pyStrip (getText p))

/-- First sport keyword (in keyword order) found in the first matching
`p`/`div`/`span` child text, title-cased. -/
def elemSport (el : Node) : Option String :=
  match (findAllTags el ["p", "div", "span"]).find? (fun p =>
      sport_keywords.any (fun k => pyIn k (pyStrip (pyLower (getText p))))) with
  | some p =>
    (sport_keywords.find? (fun k => pyIn k (pyStrip (pyLower (getText p))))).map pyTitleWord
  | none => none

/-- First anchor's href, made absolute unless it starts with `http`. -/
def elemProfile (base : String) (el : Node) : Option String :=
  match findFirstTag el "a" with
  | some link =>
    match getAttr link "href" with
    | some h => if startsWithStr h "http" then some h else some (urljoin base h)
    | none => none
  | none => none

def elemEmail (el : Node) : Option String :=
  match findAnchorHref el "mailto:" with
  | some link => (getAttr link "href").map (pyReplace "mailto:" "")
  | none => none

def elemPhone (el : Node) : Option String :=
  match findAnchorHref el "tel:" with
  | some link => (getAttr link "href").map (pyReplace "tel:" "")
  | none => none

/-- Record construction shared by strategies 2 and 3 (the
`for element in coach_elements` loop body); `none` when no name was
extracted (`if name:` guard). -/
def parseElement (base : String) (el : Node) : Option Coach :=
  if truthyStr (elemName el) then
    some { name := elemName el, position := elemPosition el, sport := elemSport el,
           profile_url := elemProfile base el, email := elemEmail el, phone := elemPhone el,
           image_url := none, school_id := none, school_name := none,
           division := none, conference := none }
  else none

/-- The `coach_elements` set of strategies 2/3: first selector hit list,
else the generic scan. -/
def coachElements (soup : Node) : List Node :=
  if (firstSelectorHit soup container_selectors).isEmpty then genericCoachElements soup
  else firstSelectorHit soup container_selectors

/-- Strategies 2 and 3 of `extract_coach_listings_bs4` (run when strategy 1
found nothing). -/
def cssGenericCoaches (soup : Node) (base : String) : List Coach :=
  (coachElements soup).filterMap (parseElement base)

/-- Model of `extract_coach_listings_bs4(html_content, base_url)`: the strategy
cascade — sidearm tables, and only when they yield nothing the CSS-pattern
and generic strategies. -/
def extract_coach_listings_bs4 (soup : Node) (base : String) : List Coach :=
  if (sidearmCoaches soup base).isEmpty then cssGenericCoaches soup base
  else sidearmCoaches soup base

/-! ## Concrete test documents -/

/-- The spec's structured-table scenario: one sidearm coach row, name cell
text `Jane Doe`, email cell `<a href="mailto:jd@x.edu">`, phone cell
present but empty. -/
def janePage : Node :=
  Node.elem "[document]" [] (nlist [
    Node.elem "table" [("class", "sidearm-table")] (nlist [
      Node.elem "tr" [("class", "sidearm-coaches-coach")] (nlist [
        Node.elem "td" [] (nlist []),
        Node.elem "td" [] (nlist [Node.text "Jane Doe"]),
        Node.elem "td" [] (nlist [Node.text "Head Coach"]),
        Node.elem "td" [] (nlist [
          Node.elem "a" [("href", "mailto:jd@x.edu")] (nlist [Node.text "jd@x.edu"])]),
        Node.elem "td" [] (nlist [])])])])

/-- What the code extracts from `janePage`: note `phone` is the empty
string (the empty cell's text), not `None`. -/
def janeCoach : Coach :=
  { name := some "Jane Doe", position := some "Head Coach", sport := some "Football",
    profile_url := none, email := some "jd@x.edu", phone := some "",
    image_url := none, school_id := none, school_name := none,
    division := none, conference := none }

example : extract_coach_listings_bs4 janePage "https://x.edu" = [janeCoach] := by decide

/-! ## Link classifier keyword data (verbatim from the source) -/

/-- Shared by `find_football_team_page` and `find_coaches_page`
(lines 386–389 and 495–498). -/
def sport_negative_keywords : List String :=
  ["soccer", "baseball", "basketball", "volleyball", "softball", "lacrosse",
   "tennis", "golf", "swimming", "diving", "track", "field", "cross country",
   "wrestling", "hockey", "rowing", "gymnastics", "rugby", "bowling", "fencing",
   "water polo", "beach volleyball", "field hockey", "skiing", "equestrian"]

def coaches_keywords : List String :=
  ["coaches", "coaching staff", "staff directory", "football staff",
   "coaches & staff", "coaches and staff", "staff", "directory"]

def roster_keywords : List String := ["roster", "team roster", "football roster", "players"]

/-- Negative keywords of `find_coaches_or_roster_link` (lines 1013–1041),
including the two entries produced by Python implicit string concatenation
across missing commas (`'secure' 'secure'` and `'resources' 'login'`), and
the appended `sport_abbreviations`. -/
def fr_negative_keywords : List String :=
  ["soccer", "baseball", "basketball", "volleyball", "softball", "lacrosse",
   "tennis", "golf", "swimming", "diving", "track", "field", "cross country",
   "wrestling", "hockey", "rowing", "gymnastics", "rugby", "bowling", "fencing",
   "water polo", "beach volleyball", "field hockey", "skiing", "equestrian", "esports",
   "dance-team", "cheerleading", "spirit", "news", "article", "press", "release",
   "voice", "tv", "clinic", "family", "camp", "youth", "fan", "shop", "store", "tickets",
   "cross-country", "department", "cycling", "wrest", "equest", "fh", "securesecure",
   "administration", "medicine", "pdf", "corner", "resourceslogin",
   "register", "sign-up", "sign in", "sign-in", "log in", "log-in",
   "mvball", "wvball", "m-baskbl", "w-baskbl", "m-soc", "w-soc", "m-lax", "w-lax",
   "wwrest", "m-wrest", "m-gym", "w-gym", "m-swim", "w-swim", "m-ten", "w-ten",
   "roger", "access", "roque", "jc", "sail", "crew", "crew", "sailing",
   "bsb", "mbkb", "wbkb", "mxc", "wxc", "mlax", "wlax", "msoc", "wsoc", "sball",
   "mswimdive", "wswimdive", "mten", "wten", "wvball", "w-baskbl", "m-xc", "w-xc",
   "w-softbl", "m-baskbl", "m-basebl", "w-volley", "c-swim", "social",
   "w-baskbl", "w-gym", "w-swim", "m-gym", "m-swim", "m-lax", "w-lax", "m-soc", "w-soc",
   "m-ten", "w-ten", "m-golf", "w-golf", "m-track", "w-track", "m-fieldhockey",
   "w-fieldhockey", "m-wrestling", "w-wrestling", "m-rugby", "w-rugby", "m-rowing",
   "w-rowing", "m-gymnastics", "w-gymnastics", "m-equestrian", "w-equestrian",
   "m-waterpolo", "w-waterpolo", "m-beachvolleyball", "w-beachvolleyball",
   "m-skiing", "w-skiing", "m-fencing", "w-fencing", "m-bowling", "w-bowling",
   "m-dance", "w-dance", "m-cheerleading", "w-cheerleading", "m-esports", "w-esports",
   "m-voice", "w-voice", "m-tv", "w-tv", "m-clinic", "w-clinic", "m-family", "w-family"]

def football_keywords : List String :=
  ["football", "football program", "fball", "football team", "football home"]

def fr_nav_words : List String :=
  ["menu", "nav", "dropdown", "coach", "coaches", "staff", "football", "roster", "rosters"]

def cp_nav_words : List String := ["menu", "nav", "dropdown", "football", "staff", "roster"]

def f_nav_words : List String := ["menu", "nav", "dropdown", "sports", "athletics"]

/-! ## Anchor scanning -/

/-- Anchors inside nav-like containers: `find_all(['nav','div','ul'],
class_=...)`, then each container's `find_all('a')`. -/
def navAnchors (soup : Node) (words : List String) : List Node :=
  flatMapL (fun nav => (descElems nav).filter (fun e => e.tag == "a"))
    (((descElems soup).filter (fun e => ["nav", "div", "ul"].contains e.tag)).filter
      (fun e => classPred e words))

/-- Model of `soup.find_all('a')`. -/
def allAnchors (soup : Node) : List Node :=
  (descElems soup).filter (fun e => e.tag == "a")

/-- Model of `any(keyword in text.lower() or keyword in href.lower() for keyword in kws)`. -/
def kwMatch (kws : List String) (hrefLower textLower : String) : Bool :=
  kws.any (fun k => pyIn k textLower || pyIn k hrefLower)

inductive FRHit where
  | coach (u : String)
  | roster (u : String)
  | skip
deriving Repr, DecidableEq

/-- Anchor classification of `find_coaches_or_roster_link` (both passes,
lines 1057–1124): drop anchors without href, with a negative keyword in
href or text, or with a date-path href; then the coaches branch (with its
coach/staff disambiguation check) and, only if the coaches keywords did
not match at all, the roster branch (with its roster/players check). -/
def processFR (base : String) (a : Node) : FRHit :=
  match getAttr a "href" with
  | none => .skip
  | some href =>
    if fr_negative_keywords.any (fun k =>
        pyIn k (pyLower (getText a)) || pyIn k (pyLower href)) then .skip
    else if hasDatePattern href then .skip
    else if kwMatch coaches_keywords (pyLower href) (pyLower (getText a)) then
      if pyIn "coach" (pyLower (getText a)) || pyIn "staff" (pyLower (getText a)) ||
          pyIn "coach" (pyLower href) || pyIn "staff" (pyLower href) then
        .coach (urljoin base href)
      else .skip
    else if kwMatch roster_keywords (pyLower href) (pyLower (getText a)) then
      if pyIn "roster" (pyLower (getText a)) || pyIn "roster" (pyLower href) ||
          pyIn "players" (pyLower (getText a)) || pyIn "players" (pyLower href) then
        .roster (urljoin base href)
      else .skip
    else .skip

/-- Anchor classification of `find_coaches_page` (lines 512–559): negative
keywords only, no date filter, no disambiguation check. -/
def processCP (base : String) (a : Node) : FRHit :=
  match getAttr a "href" with
  | none => .skip
  | some href =>
    if sport_negative_keywords.any (fun k =>
        pyIn k (pyLower (getText a)) || pyIn k (pyLower href)) then .skip
    else if kwMatch coaches_keywords (pyLower href) (pyLower (getText a)) then
      .coach (urljoin base href)
    else if kwMatch roster_keywords (pyLower href) (pyLower (getText a)) then
      .roster (urljoin base href)
    else .skip

/-- Accumulate the two candidate lists in document order. -/
def scanAnchors (process : Node → FRHit) : List Node → List String × List String
  | [] => ([], [])
  | a :: rest =>
    match process a with
    | .coach u => (u :: (scanAnchors process rest).1, (scanAnchors process rest).2)
    | .roster u => ((scanAnchors process rest).1, u :: (scanAnchors process rest).2)
    | .skip => scanAnchors process rest

/-- Candidate collection of `find_coaches_or_roster_link`: navigation pass
first, full-page pass only when the navigation pass found nothing. -/
def collectFR (soup : Node) (base : String) : List String × List String :=
  if (scanAnchors (processFR base) (navAnchors soup fr_nav_words)).1.isEmpty &&
      (scanAnchors (processFR base) (navAnchors soup fr_nav_words)).2.isEmpty then
    scanAnchors (processFR base) (allAnchors soup)
  else scanAnchors (processFR base) (navAnchors soup fr_nav_words)

/-- Candidate collection of `find_coaches_page`. -/
def collectCP (soup : Node) (base : String) : List String × List String :=
  if (scanAnchors (processCP base) (navAnchors soup cp_nav_words)).1.isEmpty &&
      (scanAnchors (processCP base) (navAnchors soup cp_nav_words)).2.isEmpty then
    scanAnchors (processCP base) (allAnchors soup)
  else scanAnchors (processCP base) (navAnchors soup cp_nav_words)

/-! ## Pattern-probe fallbacks (`get_simulate_coaches_link`,
`get_simulate_roster_link`) -/

def coachesProbePatterns : List String :=
  ["/coaches", "/coaching-staff", "/football/coaches", "/football/staff",
   "/football/coaching-staff", "/football/coaches", "/sports/football/coaches",
   "/staff-directory"]

def coachesProbeKeywords : List String := ["coach", "staff", "coaching staff"]

def rosterProbePatterns : List String :=
  ["/roster", "/team-roster", "/football/roster", "/football/team-roster",
   "/sports/football/roster", "/football/roster.html", "/football/team-roster.html"]

def rosterProbeKeywords : List String := ["roster", "players", "team roster"]

/-- Outcome of one `requests.get`: `none` = network error
(`RequestException`), `some (status, body)` otherwise. -/
abbrev HttpOracle := String → Option (Nat × String)

/-- One probe: accepted iff the response arrived, its status is exactly
200, and its lower-cased body contains one of the keywords.  A network
error (`none`) is a non-match for this candidate only. -/
def probeOk (http : HttpOracle) (u : String) (kws : List String) : Bool :=
  match http u with
  | some (status, body) => status == 200 && kws.any (fun k => pyIn k (pyLower body))
  | none => false

/-- The probe loop: first pattern, in order, whose candidate URL is
accepted. -/
def firstProbe (http : HttpOracle) (url : String) (kws : List String) :
    List String → Option String
  | [] => none
  | p :: rest =>
    if probeOk http (urljoin url p) kws then some (urljoin url p)
    else firstProbe http url kws rest

def get_simulate_coaches_link (http : HttpOracle) (url : String) : Option String :=
  firstProbe http url coachesProbeKeywords coachesProbePatterns

def get_simulate_roster_link (http : HttpOracle) (url : String) : Option String :=
  firstProbe http url rosterProbeKeywords rosterProbePatterns

/-! ## `find_coaches_or_roster_link` selection and
`find_coaches_page` tie-break -/

def isFootballCoachesUrl (link : String) : Bool :=
  pyIn "football" (pyLower link) || pyIn "coaches" (pyLower link)

/-- Result of `find_coaches_or_roster_link`, instrumented with whether each
network probe was invoked. -/
structure FRResult where
  url : String
  coachProbeUsed : Bool
  rosterProbeUsed : Bool
deriving Repr, DecidableEq

/-- Lines 1126–1167: football/coaches-filtered coaches candidate first;
otherwise the coaches probe; otherwise the first roster candidate with its
query string stripped; otherwise the roster probe; otherwise "Not found".
Plain (non-football) coaches candidates are never returned. -/
def fcorl_select (coachCands rosterCands : List String)
    (simCoaches simRoster : Option String) : FRResult :=
  match coachCands.filter isFootballCoachesUrl with
  | f :: _ => ⟨f, false, false⟩
  | [] =>
    match simCoaches with
    | some u => ⟨u, true, false⟩
    | none =>
      match rosterCands with
      | r :: _ => ⟨stripQuery r, true, false⟩
      | [] =>
        match simRoster with
        | some u => ⟨u, true, true⟩
        | none => ⟨"Not found", true, true⟩

/-- Model of `find_coaches_or_roster_link(url)`: `fetch` models the initial
`requests.get` + BeautifulSoup parse (`none` = request failure, handled by
the outer `except` as "Not found"), `http` the probe requests. -/
def find_coaches_or_roster_link (fetch : String → Option Node) (http : HttpOracle)
    (url0 : String) : FRResult :=
  match fetch (ensureHttps url0) with
  | none => ⟨"Not found", false, false⟩
  | some soup =>
    fcorl_select (collectFR soup (ensureHttps url0)).1 (collectFR soup (ensureHttps url0)).2
      (get_simulate_coaches_link http (ensureHttps url0))
      (get_simulate_roster_link http (ensureHttps url0))

/-- Lines 561–579 of `find_coaches_page`: filtered (football/coaches)
coaches candidate with query retained; else first roster candidate with
query stripped; else first plain coaches candidate with query retained;
else nothing. -/
def choose_from_candidates (coachCands rosterCands : List String) : Option String :=
  match coachCands.filter isFootballCoachesUrl with
  | f :: _ => some f
  | [] =>
    match rosterCands with
    | r :: _ => some (stripQuery r)
    | [] =>
      match coachCands with
      | c :: _ => some c
      | [] => none

/-- Model of `find_coaches_page(athletics_url)`.  When nothing is chosen the source
evaluates `if self.ai_parser:`, which raises `AttributeError` (the
attribute is never assigned); the function's own `try/except` turns that
into `None`, so the model returns `none` directly. -/
def find_coaches_page (fetch : String → Option Node) (url0 : String) : Option String :=
  match fetch (ensureHttps url0) with
  | none => none
  | some soup =>
    choose_from_candidates (collectCP soup (ensureHttps url0)).1
      (collectCP soup (ensureHttps url0)).2

/-- Anchor classification of `find_football_team_page` (lines 399–434). -/
def processF (base : String) (a : Node) : Option String :=
  match getAttr a "href" with
  | none => none
  | some href =>
    if sport_negative_keywords.any (fun k =>
        pyIn k (pyLower (getText a)) || pyIn k (pyLower href)) then none
    else if kwMatch football_keywords (pyLower href) (pyLower (getText a)) then
      some (urljoin base href)
    else none

/-- Candidates of `find_football_team_page`: navigation pass, else the
full-page pass. -/
def footballCandidates (soup : Node) (url : String) : List String :=
  if ((navAnchors soup f_nav_words).filterMap (processF url)).isEmpty then
    (allAnchors soup).filterMap (processF url)
  else (navAnchors soup f_nav_words).filterMap (processF url)

/-- Model of `find_football_team_page(athletics_url)`: https prefix, netloc
validity check, nav pass then full pass, first candidate with query
parameters stripped.  The AI fallback (dead: `self.ai_parser` raises,
caught by the outer `except`) is `none`. -/
def find_football_team_page (fetch : String → Option Node) (url0 : String) : Option String :=
  if strEmpty (netlocOf (ensureHttps url0)) then none
  else
    match fetch (ensureHttps url0) with
    | none => none
    | some soup =>
      match footballCandidates soup (ensureHttps url0) with
      | c :: _ => some (stripQuery c)
      | [] => none

/-! ## Fetcher (`get_page`) -/

inductive NetOutcome where
  | err : NetOutcome
  | resp (status : Nat) (body : String) : NetOutcome
deriving Repr, DecidableEq

/-- Model of `response.raise_for_status()` raises exactly for statuses 400–599. -/
def raisesForStatus (st : Nat) : Bool := 400 ≤ st && st < 600

def netFails : NetOutcome → Bool
  | .err => true
  | .resp st _ => raisesForStatus st

/-- The retry loop of `get_page` (`for attempt in range(max_retries)`),
with `net` giving each attempt's outcome.  Returns the page text (or
`none` after the attempts are exhausted) together with the list of
exponential-backoff sleeps (`time.sleep(2 ** attempt)`) performed between
attempts.  Fuel (`m - attempt`) keeps the recursion structural. -/
def get_page_go (net : Nat → NetOutcome) (m : Nat) : Nat → Nat → Option String × List Nat
  | 0, _ => (none, [])
  | fuel + 1, attempt =>
    match net attempt with
    | .resp st body =>
      if raisesForStatus st then
        if attempt = m - 1 then (none, [])
        else ((get_page_go net m fuel (attempt + 1)).1,
              2 ^ attempt :: (get_page_go net m fuel (attempt + 1)).2)
      else (some body, [])
    | .err =>
      if attempt = m - 1 then (none, [])
      else ((get_page_go net m fuel (attempt + 1)).1,
            2 ^ attempt :: (get_page_go net m fuel (attempt + 1)).2)

/-- Model of `get_page(url, max_retries)` for a fixed URL: the loop over attempts.
Never raises: `RequestException` (including the `raise_for_status` errors)
is caught, and `None` is returned when the attempts run out. -/
def get_page (net : Nat → NetOutcome) (max_retries : Nat) : Option String × List Nat :=
  get_page_go net max_retries max_retries 0

/-! ## School pipeline (`scrape_coach_roster`, `scrape_coach_bios`,
`scrape_school`) -/

structure SchoolData where
  school_id : Option String
  school_name : Option String
  athletics_url : Option String
  division : Option String
  conference : Option String
deriving Repr, DecidableEq

/-- Model of `school_data.get('school_name', '')`. -/
def SchoolData.nameStr (s : SchoolData) : String := s.school_name.getD ""

/-- Model of `school_data.get('athletics_url', '')`. -/
def SchoolData.athleticsStr (s : SchoolData) : String := s.athletics_url.getD ""

/-- The stamping loop at the end of `scrape_coach_roster`: school fields
copied from the input and `sport` overwritten with `'Football'`. -/
def stampCoach (school : SchoolData) (c : Coach) : Coach :=
  { c with
    school_id := school.school_id
    school_name := some school.nameStr
    division := school.division
    conference := school.conference
    sport := some "Football" }

/-- Model of `scrape_coach_roster(school_data)`: football page, coaches page, fetch,
extract, stamp.  Every per-stage failure yields `[]`. -/
def scrape_coach_roster (fetch : String → Option Node) (school : SchoolData) : List Coach :=
  if strEmpty school.athleticsStr then []
  else
    match find_football_team_page fetch school.athleticsStr with
    | none => []
    | some football_url =>
      match find_coaches_page fetch football_url with
      | none => []
      | some coaches_url =>
        match fetch coaches_url with
        | none => []
        | some soup =>
          (extract_coach_listings_bs4 soup coaches_url).map (stampCoach school)

inductive PyErr where
  | attributeError
deriving Repr, DecidableEq

/-- Model of `scrape_coach_bios(coaches, school_name)`: coaches without a (truthy)
profile URL, or whose profile page fails to fetch, pass through unchanged;
otherwise the source evaluates the call argument
`self.ai_parser.extract_coach_bio`, and since `NCAAScraper.__init__` never
assigns `self.ai_parser` (the assignment is commented out), that attribute
access raises `AttributeError`, uncaught in this function. -/
def scrape_coach_bios (fetch : String → Option Node) :
    List Coach → Except PyErr (List Coach)
  | [] => .ok []
  | c :: rest =>
    if truthyStr c.profile_url then
      match fetch (c.profile_url.getD "") with
      | none =>
        match scrape_coach_bios fetch rest with
        | .ok l => .ok (c :: l)
        | .error e => .error e
      | some _ => .error .attributeError
    else
      match scrape_coach_bios fetch rest with
      | .ok l => .ok (c :: l)
      | .error e => .error e

structure ScrapeResult where
  school_data : SchoolData
  coaches : List Coach
  success : Bool
deriving Repr, DecidableEq

/-- Computable equality test for `Except`, so that concrete pipeline
results can be checked by `decide`. -/
def exceptDecEq {ε α : Type} [DecidableEq ε] [DecidableEq α] :
    DecidableEq (Except ε α) := fun a b =>
  match a, b with
  | .ok x, .ok y =>
    match decEq x y with
    | isTrue h => isTrue (h ▸ rfl)
    | isFalse h => isFalse (fun hh => h (Except.ok.inj hh))
  | .error x, .error y =>
    match decEq x y with
    | isTrue h => isTrue (h ▸ rfl)
    | isFalse h => isFalse (fun hh => h (Except.error.inj hh))
  | .ok _, .error _ => isFalse (fun hh => Except.noConfusion hh)
  | .error _, .ok _ => isFalse (fun hh => Except.noConfusion hh)

instance {ε α : Type} [DecidableEq ε] [DecidableEq α] : DecidableEq (Except ε α) :=
  exceptDecEq

/-- Model of `scrape_school(school_data, ...)`: roster scrape, the empty-roster
sentinel, then bio enrichment. -/
def scrape_school (fetch : String → Option Node) (school : SchoolData) :
    Except PyErr ScrapeResult :=
  if (scrape_coach_roster fetch school).isEmpty then .ok ⟨school, [], false⟩
  else
    match scrape_coach_bios fetch (scrape_coach_roster fetch school) with
    | .ok bios => .ok ⟨school, bios, true⟩
    | .error e => .error e

/-! ## Concrete worlds for the pipeline -/

def athleticsPage : Node :=
  Node.elem "[document]" [] (nlist [
    Node.elem "a" [("href", "/sports/football")] (nlist [Node.text "Football"])])

def footballPage : Node :=
  Node.elem "[document]" [] (nlist [
    Node.elem "a" [("href", "/sports/football/coaches")] (nlist [Node.text "Coaches"])])

/-- Sidearm table whose single coach has a profile link. -/
def coachesPage : Node :=
  Node.elem "[document]" [] (nlist [
    Node.elem "table" [("class", "sidearm-table")] (nlist [
      Node.elem "tr" [("class", "sidearm-coaches-coach")] (nlist [
        Node.elem "td" [] (nlist []),
        Node.elem "td" [] (nlist [
          Node.elem "a" [("href", "/coaches/jane")] (nlist [Node.text "Jane Doe"])]),
        Node.elem "td" [] (nlist [Node.text "Head Coach"])])])])

def profilePage : Node := Node.elem "[document]" [] (nlist [Node.text "Bio"])

def demoSchool : SchoolData :=
  { school_id := some "S1", school_name := some "Example U",
    athletics_url := some "ath.edu", division := some "III",
    conference := some "Example Conf" }

/-- A world where every stage succeeds up to bio enrichment. -/
def goodFetch : String → Option Node := fun u =>
  if u == "https://ath.edu" then some athleticsPage
  else if u == "https://ath.edu/sports/football" then some footballPage
  else if u == "https://ath.edu/sports/football/coaches" then some coachesPage
  else if u == "https://ath.edu/coaches/jane" then some profilePage
  else none

example :
    find_football_team_page goodFetch "ath.edu" = some "https://ath.edu/sports/football" := by
  decide
example :
    find_coaches_page goodFetch "https://ath.edu/sports/football" =
      some "https://ath.edu/sports/football/coaches" := by decide
example :
    (scrape_coach_roster goodFetch demoSchool).map Coach.name = [some "Jane Doe"] := by
  decide
example : scrape_school goodFetch demoSchool = .error .attributeError := by decide
example :
    scrape_school (fun _ => none) demoSchool = .ok ⟨demoSchool, [], false⟩ := by decide

/-- The record `scrape_coach_roster` produces in the `goodFetch` world. -/
def demoStamped : Coach :=
  { name := some "Jane Doe", position := some "Head Coach", sport := some "Football",
    profile_url := some "https://ath.edu/coaches/jane", email := none, phone := none,
    image_url := none, school_id := some "S1", school_name := some "Example U",
    division := some "III", conference := some "Example Conf" }

example : scrape_coach_roster goodFetch demoSchool = [demoStamped] := by decide

/-! ## Helper lemmas -/

theorem truthyStr_spec {o : Option String} (h : truthyStr o = true) :
    ∃ s, o = some s ∧ s ≠ "" := by
  cases o with
  | none => exact absurd h (by decide)
  | some s =>
    refine ⟨s, rfl, fun hs => ?_⟩
    rw [hs] at h
    exact absurd h (by decide)

theorem mem_flatMapL {α β : Type} {f : α → List β} {b : β} :
    ∀ {l : List α}, b ∈ flatMapL f l → ∃ a, a ∈ l ∧ b ∈ f a := by
  intro l
  induction l with
  | nil => intro h; exact absurd h (by simp [flatMapL])
  | cons a rest ih =>
    intro h
    simp only [flatMapL, List.mem_append] at h
    rcases h with h | h
    · exact ⟨a, List.mem_cons_self a rest, h⟩
    · rcases ih h with ⟨x, hx, hbx⟩
      exact ⟨x, List.mem_cons_of_mem a hx, hbx⟩

/-- A sidearm row is only emitted under the `if name:` guard. -/
theorem parseSidearmRow_name {base : String} {row : Node} {c : Coach}
    (h : parseSidearmRow base row = some c) : truthyStr c.name = true := by
  unfold parseSidearmRow at h
  split at h
  · exact absurd h (by simp)
  · split at h
    · rename_i hguard
      cases Option.some.inj h
      exact hguard
    · exact absurd h (by simp)

/-- A strategy-2/3 record is only emitted under the `if name:` guard. -/
theorem parseElement_name {base : String} {el : Node} {c : Coach}
    (h : parseElement base el = some c) : truthyStr c.name = true := by
  unfold parseElement at h
  split at h
  · rename_i hguard
    cases Option.some.inj h
    exact hguard
  · exact absurd h (by simp)

/-! ## C2 — extracted records always carry a non-empty name -/

/-- C2: for every HTML input and base URL, every record returned by
`extract_coach_listings_bs4` has a non-`None`, non-empty `name`, under all
three cascade strategies. -/
theorem c2_extract_name_nonempty (soup : Node) (base : String) (c : Coach)
    (hc : c ∈ extract_coach_listings_bs4 soup base) :
    ∃ s, c.name = some s ∧ s ≠ "" := by
  apply truthyStr_spec
  unfold extract_coach_listings_bs4 at hc
  split at hc
  · -- cascade branch: strategies 2/3
    unfold cssGenericCoaches at hc
    rcases List.mem_filterMap.mp hc with ⟨el, _, hel⟩
    exact parseElement_name hel
  · -- sidearm branch
    unfold sidearmCoaches at hc
    rcases mem_flatMapL hc with ⟨table, _, hb⟩
    rcases List.mem_filterMap.mp hb with ⟨row, _, hrow⟩
    exact parseSidearmRow_name hrow

theorem c2_extract_name_nonempty_witness :
    ∃ s, janeCoach.name = some s ∧ s ≠ "" :=
  c2_extract_name_nonempty janePage "https://x.edu" janeCoach (by decide)

/-! ## C3 — sidearm short-circuit -/

/-- C3: whenever the structured-table (sidearm) strategy yields at least
one record, `extract_coach_listings_bs4` returns exactly those records —
the CSS-pattern and generic strategies never contribute. -/
theorem c3_sidearm_short_circuit (soup : Node) (base : String)
    (h : sidearmCoaches soup base ≠ []) :
    extract_coach_listings_bs4 soup base = sidearmCoaches soup base := by
  unfold extract_coach_listings_bs4
  rw [if_neg]
  intro hemp
  exact h (List.isEmpty_iff.mp hemp)

theorem c3_sidearm_short_circuit_witness :
    extract_coach_listings_bs4 janePage "https://x.edu" =
      sidearmCoaches janePage "https://x.edu" :=
  c3_sidearm_short_circuit janePage "https://x.edu" (by decide)

/-! ## C9 — the Jane Doe table scenario -/

/-- C9 counterexample: at the spec's scenario input (name cell `Jane Doe`,
email cell `mailto:jd@x.edu`, phone cell present but empty), no extracted
record has `phone = None` — the claimed record
`{name: Jane Doe, email: jd@x.edu, phone: null}` is not produced. -/
theorem c9_counterexample :
    ¬ ∃ c ∈ extract_coach_listings_bs4 janePage "https://x.edu",
      c.name = some "Jane Doe" ∧ c.email = some "jd@x.edu" ∧ c.phone = none := by
  decide

/-- C9 amended: the scenario input yields exactly one record, with
`name = "Jane Doe"`, `email = "jd@x.edu"` and `phone = ""` (the empty
phone cell's text — `cells[4].get_text(strip=True)` — not `None`;
`None` would require the phone cell to be absent). -/
theorem c9_amended_jane_record :
    extract_coach_listings_bs4 janePage "https://x.edu" = [janeCoach] := by
  decide

/-! ## C10 — school stamping in `scrape_coach_roster` -/

/-- C10: every record returned by `scrape_coach_roster` has
`sport = 'Football'` and the school fields copied from the input school
data, overwriting whatever the extractor derived. -/
theorem c10_stamped_fields (fetch : String → Option Node) (school : SchoolData)
    (c : Coach) (hc : c ∈ scrape_coach_roster fetch school) :
    c.sport = some "Football" ∧ c.school_id = school.school_id ∧
    c.school_name = some school.nameStr ∧ c.division = school.division ∧
    c.conference = school.conference := by
  unfold scrape_coach_roster at hc
  split at hc
  · exact absurd hc (by simp)
  · split at hc
    · exact absurd hc (by simp)
    · split at hc
      · exact absurd hc (by simp)
      · split at hc
        · exact absurd hc (by simp)
        · rcases List.mem_map.mp hc with ⟨c0, _, rfl⟩
          exact ⟨rfl, rfl, rfl, rfl, rfl⟩

/-! ## C4 — negative-keyword / date-pattern exclusion -/

/-- An anchor rejected by the negative-keyword or date-pattern filter of
`find_coaches_or_roster_link`: its href or visible text contains a
negative keyword, or its href matches a date path. -/
def frTaintedAnchor (a : Node) : Bool :=
  match getAttr a "href" with
  | none => false
  | some href =>
    fr_negative_keywords.any (fun k =>
      pyIn k (pyLower (getText a)) || pyIn k (pyLower href)) || hasDatePattern href

theorem firstProbe_none_oracle (url : String) (kws : List String) :
    ∀ pats : List String, firstProbe (fun _ => none) url kws pats = none := by
  intro pats
  induction pats with
  | nil => rfl
  | cons p rest ih => simpa [firstProbe, probeOk] using ih

theorem gscl_none (url : String) :
    get_simulate_coaches_link (fun _ => none) url = none :=
  firstProbe_none_oracle url coachesProbeKeywords coachesProbePatterns

theorem gsrl_none (url : String) :
    get_simulate_roster_link (fun _ => none) url = none :=
  firstProbe_none_oracle url rosterProbeKeywords rosterProbePatterns

/-- Every collected coaches candidate comes from a scanned anchor that the
classifier mapped to it. -/
theorem scanAnchors_coach_mem {process : Node → FRHit} :
    ∀ {l : List Node} {u : String}, u ∈ (scanAnchors process l).1 →
      ∃ a, a ∈ l ∧ process a = FRHit.coach u := by
  intro l
  induction l with
  | nil => intro u h; exact absurd h (by simp [scanAnchors])
  | cons a rest ih =>
    intro u h
    unfold scanAnchors at h
    split at h
    · rename_i u2 heq
      rcases List.mem_cons.mp h with rfl | h2
      · exact ⟨a, List.mem_cons_self a rest, heq⟩
      · rcases ih h2 with ⟨x, hx, hpx⟩
        exact ⟨x, List.mem_cons_of_mem a hx, hpx⟩
    · rcases ih h with ⟨x, hx, hpx⟩
      exact ⟨x, List.mem_cons_of_mem a hx, hpx⟩
    · rcases ih h with ⟨x, hx, hpx⟩
      exact ⟨x, List.mem_cons_of_mem a hx, hpx⟩

theorem scanAnchors_roster_mem {process : Node → FRHit} :
    ∀ {l : List Node} {u : String}, u ∈ (scanAnchors process l).2 →
      ∃ a, a ∈ l ∧ process a = FRHit.roster u := by
  intro l
  induction l with
  | nil => intro u h; exact absurd h (by simp [scanAnchors])
  | cons a rest ih =>
    intro u h
    unfold scanAnchors at h
    split at h
    · rcases ih h with ⟨x, hx, hpx⟩
      exact ⟨x, List.mem_cons_of_mem a hx, hpx⟩
    · rename_i u2 heq
      rcases List.mem_cons.mp h with rfl | h2
      · exact ⟨a, List.mem_cons_self a rest, heq⟩
      · rcases ih h2 with ⟨x, hx, hpx⟩
        exact ⟨x, List.mem_cons_of_mem a hx, hpx⟩
    · rcases ih h with ⟨x, hx, hpx⟩
      exact ⟨x, List.mem_cons_of_mem a hx, hpx⟩

theorem collectFR_coach_mem {soup : Node} {base u : String}
    (h : u ∈ (collectFR soup base).1) :
    ∃ a, (a ∈ navAnchors soup fr_nav_words ∨ a ∈ allAnchors soup) ∧
      processFR base a = FRHit.coach u := by
  unfold collectFR at h
  split at h
  · rcases scanAnchors_coach_mem h with ⟨a, ha, hpa⟩
    exact ⟨a, Or.inr ha, hpa⟩
  · rcases scanAnchors_coach_mem h with ⟨a, ha, hpa⟩
    exact ⟨a, Or.inl ha, hpa⟩

theorem collectFR_roster_mem {soup : Node} {base u : String}
    (h : u ∈ (collectFR soup base).2) :
    ∃ a, (a ∈ navAnchors soup fr_nav_words ∨ a ∈ allAnchors soup) ∧
      processFR base a = FRHit.roster u := by
  unfold collectFR at h
  split at h
  · rcases scanAnchors_roster_mem h with ⟨a, ha, hpa⟩
    exact ⟨a, Or.inr ha, hpa⟩
  · rcases scanAnchors_roster_mem h with ⟨a, ha, hpa⟩
    exact ⟨a, Or.inl ha, hpa⟩

/-- An anchor classified as a coaches candidate has an href, passed the
negative-keyword and date filters, and produced the joined URL. -/
theorem processFR_coach_spec {base : String} {a : Node} {u : String}
    (h : processFR base a = FRHit.coach u) :
    ∃ href, getAttr a "href" = some href ∧ frTaintedAnchor a = false ∧
      u = urljoin base href := by
  unfold processFR at h
  split at h
  · exact FRHit.noConfusion h
  · rename_i href heq
    split at h
    · exact FRHit.noConfusion h
    · rename_i hneg
      split at h
      · exact FRHit.noConfusion h
      · rename_i hdate
        split at h
        · split at h
          · refine ⟨href, heq, ?_, (FRHit.coach.inj h).symm⟩
            unfold frTaintedAnchor
            rw [heq]
            show (fr_negative_keywords.any (fun k =>
              pyIn k (pyLower (getText a)) || pyIn k (pyLower href)) ||
                hasDatePattern href) = false
            rw [Bool.eq_false_iff.mpr hneg, Bool.eq_false_iff.mpr hdate]
            rfl
          · exact FRHit.noConfusion h
        · split at h
          · split at h
            · exact FRHit.noConfusion h
            · exact FRHit.noConfusion h
          · exact FRHit.noConfusion h

theorem processFR_roster_spec {base : String} {a : Node} {u : String}
    (h : processFR base a = FRHit.roster u) :
    ∃ href, getAttr a "href" = some href ∧ frTaintedAnchor a = false ∧
      u = urljoin base href := by
  unfold processFR at h
  split at h
  · exact FRHit.noConfusion h
  · rename_i href heq
    split at h
    · exact FRHit.noConfusion h
    · rename_i hneg
      split at h
      · exact FRHit.noConfusion h
      · rename_i hdate
        split at h
        · split at h
          · exact FRHit.noConfusion h
          · exact FRHit.noConfusion h
        · split at h
          · split at h
            · refine ⟨href, heq, ?_, (FRHit.roster.inj h).symm⟩
              unfold frTaintedAnchor
              rw [heq]
              show (fr_negative_keywords.any (fun k =>
                pyIn k (pyLower (getText a)) || pyIn k (pyLower href)) ||
                  hasDatePattern href) = false
              rw [Bool.eq_false_iff.mpr hneg, Bool.eq_false_iff.mpr hdate]
              rfl
            · exact FRHit.noConfusion h
          · exact FRHit.noConfusion h

/-- C4: whenever `find_coaches_or_roster_link` returns a classified URL
(probes failing, result not "Not found"), that URL originates — directly
or with its query string stripped — from an anchor that carried an href
and passed both the negative-keyword and the date-pattern filters.  An
anchor with a negative keyword in its href or text, or a date-path href,
is therefore never the returned one, even if it also matches a positive
keyword. -/
theorem c4_tainted_anchor_never_returned (fetch : String → Option Node) (url0 : String)
    (soup : Node) (hf : fetch (ensureHttps url0) = some soup)
    (hne : (find_coaches_or_roster_link fetch (fun _ => none) url0).url ≠ "Not found") :
    ∃ a href, (a ∈ navAnchors soup fr_nav_words ∨ a ∈ allAnchors soup) ∧
      getAttr a "href" = some href ∧ frTaintedAnchor a = false ∧
      ((find_coaches_or_roster_link fetch (fun _ => none) url0).url =
          urljoin (ensureHttps url0) href ∨
        (find_coaches_or_roster_link fetch (fun _ => none) url0).url =
          stripQuery (urljoin (ensureHttps url0) href)) := by
  have hres : find_coaches_or_roster_link fetch (fun _ => none) url0 =
      fcorl_select (collectFR soup (ensureHttps url0)).1
        (collectFR soup (ensureHttps url0)).2 none none := by
    unfold find_coaches_or_roster_link
    rw [hf]
    show fcorl_select (collectFR soup (ensureHttps url0)).1
        (collectFR soup (ensureHttps url0)).2
        (get_simulate_coaches_link (fun _ => none) (ensureHttps url0))
        (get_simulate_roster_link (fun _ => none) (ensureHttps url0)) = _
    rw [gscl_none, gsrl_none]
  rw [hres] at hne ⊢
  cases hfilt : (collectFR soup (ensureHttps url0)).1.filter isFootballCoachesUrl with
  | cons f fs =>
    have hsel : fcorl_select (collectFR soup (ensureHttps url0)).1
        (collectFR soup (ensureHttps url0)).2 none none = ⟨f, false, false⟩ := by
      unfold fcorl_select
      rw [hfilt]
    rw [hsel]
    have hfmem : f ∈ (collectFR soup (ensureHttps url0)).1 := by
      apply List.mem_of_mem_filter (p := isFootballCoachesUrl)
      rw [hfilt]
      exact List.mem_cons_self f fs
    rcases collectFR_coach_mem hfmem with ⟨a, ha, hpa⟩
    rcases processFR_coach_spec hpa with ⟨href, hhref, hclean, hu⟩
    exact ⟨a, href, ha, hhref, hclean, Or.inl hu⟩
  | nil =>
    cases hrl : (collectFR soup (ensureHttps url0)).2 with
    | nil =>
      exact absurd (by unfold fcorl_select; rw [hfilt, hrl]) hne
    | cons r rs =>
      have hsel : fcorl_select (collectFR soup (ensureHttps url0)).1
          (r :: rs) none none = ⟨stripQuery r, true, false⟩ := by
        unfold fcorl_select
        rw [hfilt]
      rw [hsel]
      have hrmem : r ∈ (collectFR soup (ensureHttps url0)).2 := by
        rw [hrl]
        exact List.mem_cons_self r rs
      rcases collectFR_roster_mem hrmem with ⟨a, ha, hpa⟩
      rcases processFR_roster_spec hpa with ⟨href, hhref, hclean, hu⟩
      exact ⟨a, href, ha, hhref, hclean, Or.inr (by rw [hu])⟩

def frWitnessFetch : String → Option Node := fun u =>
  if u == "https://x.edu" then some footballPage else none

theorem c4_tainted_anchor_never_returned_witness :
    ∃ a href,
      (a ∈ navAnchors footballPage fr_nav_words ∨ a ∈ allAnchors footballPage) ∧
      getAttr a "href" = some href ∧ frTaintedAnchor a = false ∧
      ((find_coaches_or_roster_link frWitnessFetch (fun _ => none) "https://x.edu").url =
          urljoin (ensureHttps "https://x.edu") href ∨
        (find_coaches_or_roster_link frWitnessFetch (fun _ => none) "https://x.edu").url =
          stripQuery (urljoin (ensureHttps "https://x.edu") href)) :=
  c4_tainted_anchor_never_returned frWitnessFetch "https://x.edu" footballPage
    (by rfl) (by decide)

/-! ## C5 — combined coaches+roster tie-break -/

/-- A page whose only candidate is a non-football coaches anchor. -/
def staffPage : Node :=
  Node.elem "[document]" [] (nlist [
    Node.elem "a" [("href", "/athletics/staff")] (nlist [Node.text "Staff Directory"])])

def staffFetch : String → Option Node := fun u =>
  if u == "https://x.edu" then some staffPage else none

/-- C5 counterexample: `find_coaches_or_roster_link` classifies exactly one
(non-football) coaches candidate and no roster candidate, yet — with the
network probes failing — returns "Not found" instead of that candidate:
unlike `find_coaches_page`, it never returns a non-football coaches
candidate. -/
theorem c5_counterexample :
    (collectFR staffPage "https://x.edu").1 = ["https://x.edu/athletics/staff"] ∧
    (collectFR staffPage "https://x.edu").2 = [] ∧
    find_coaches_or_roster_link staffFetch (fun _ => none) "https://x.edu" =
      ⟨"Not found", true, true⟩ := by
  decide

/-- C5 amended: the three-step tie-break holds as stated for
`find_coaches_page` (`choose_from_candidates`): a football/coaches-filtered
coaches candidate first (query retained — the candidate is returned
as-is), else the first roster candidate query-stripped, else the first
plain coaches candidate (query retained).  In
`find_coaches_or_roster_link` (`fcorl_select`) the first two steps agree
when the probes fail, but a non-football coaches candidate is never
returned: with no roster candidates and failing probes the function yields
"Not found". -/
theorem c5_amended_tie_break (cl rl : List String) :
    (cl.filter isFootballCoachesUrl ≠ [] →
      choose_from_candidates cl rl = (cl.filter isFootballCoachesUrl).head? ∧
      fcorl_select cl rl none none =
        ⟨(cl.filter isFootballCoachesUrl).headD "Not found", false, false⟩) ∧
    (cl.filter isFootballCoachesUrl = [] → rl ≠ [] →
      choose_from_candidates cl rl = rl.head?.map stripQuery ∧
      (fcorl_select cl rl none none).url = stripQuery (rl.headD "Not found")) ∧
    (cl.filter isFootballCoachesUrl = [] → rl = [] →
      choose_from_candidates cl rl = cl.head? ∧
      fcorl_select cl rl none none = ⟨"Not found", true, true⟩) := by
  refine ⟨?_, ?_, ?_⟩
  · intro hne
    cases hfilt : cl.filter isFootballCoachesUrl with
    | nil => exact absurd hfilt hne
    | cons f fs =>
      constructor
      · unfold choose_from_candidates
        rw [hfilt]
        rfl
      · unfold fcorl_select
        rw [hfilt]
        rfl
  · intro hfilt hne
    cases rl with
    | nil => exact absurd rfl hne
    | cons r rs =>
      constructor
      · unfold choose_from_candidates
        rw [hfilt]
        rfl
      · unfold fcorl_select
        rw [hfilt]
        rfl
  · intro hfilt hrl
    subst hrl
    constructor
    · cases cl with
      | nil =>
        unfold choose_from_candidates
        rfl
      | cons c cs =>
        unfold choose_from_candidates
        rw [hfilt]
        rfl
    · unfold fcorl_select
      rw [hfilt]

theorem c5_amended_tie_break_witness :
    choose_from_candidates ["https://x.edu/football/coaches"]
        ["https://x.edu/roster?view=2"] =
      (["https://x.edu/football/coaches"].filter isFootballCoachesUrl).head? ∧
    fcorl_select ["https://x.edu/football/coaches"] ["https://x.edu/roster?view=2"]
        none none =
      ⟨(["https://x.edu/football/coaches"].filter isFootballCoachesUrl).headD "Not found",
        false, false⟩ :=
  (c5_amended_tie_break ["https://x.edu/football/coaches"]
    ["https://x.edu/roster?view=2"]).1 (by decide)

/-! ## C6 — when the pattern probes are invoked -/

/-- A page whose only candidate is a roster anchor. -/
def rosterOnlyPage : Node :=
  Node.elem "[document]" [] (nlist [
    Node.elem "a" [("href", "/football/roster")] (nlist [Node.text "Roster"])])

def rosterOnlyFetch : String → Option Node := fun u =>
  if u == "https://x.edu" then some rosterOnlyPage else none

/-- Probe world where the first coaches suffix `/coaches` answers 200 with
a corroborating body. -/
def coachProbeHttp : HttpOracle := fun u =>
  if u == "https://x.edu/coaches" then some (200, "Meet our coaching staff") else none

/-- C6 counterexample: the classifier found a roster candidate anchor, yet
the coaches probe is still issued (no football/coaches-filtered coaches
candidate exists) and, succeeding, its URL — not the classified roster
candidate — is returned. -/
theorem c6_counterexample :
    (collectFR rosterOnlyPage "https://x.edu").2 =
      ["https://x.edu/football/roster"] ∧
    find_coaches_or_roster_link rosterOnlyFetch coachProbeHttp "https://x.edu" =
      ⟨"https://x.edu/coaches", true, false⟩ := by
  decide

/-- C6 amended: the coaches probe is invoked iff no football/coaches-
filtered coaches candidate exists (so a roster-only classification still
triggers it); the roster probe is invoked iff additionally the coaches
probe failed and no roster candidate exists; and when a filtered coaches
candidate exists no probe is issued and the first such candidate is
returned. -/
theorem c6_amended_probe_condition (cl rl : List String) (sc sr : Option String) :
    (fcorl_select cl rl sc sr).coachProbeUsed =
      (cl.filter isFootballCoachesUrl).isEmpty ∧
    (fcorl_select cl rl sc sr).rosterProbeUsed =
      ((cl.filter isFootballCoachesUrl).isEmpty && sc.isNone && rl.isEmpty) ∧
    (cl.filter isFootballCoachesUrl ≠ [] →
      fcorl_select cl rl sc sr =
        ⟨(cl.filter isFootballCoachesUrl).headD "Not found", false, false⟩) := by
  cases hfilt : cl.filter isFootballCoachesUrl with
  | cons f fs =>
    refine ⟨?_, ?_, fun _ => ?_⟩
    · unfold fcorl_select
      rw [hfilt]
      rfl
    · unfold fcorl_select
      rw [hfilt]
      rfl
    · unfold fcorl_select
      rw [hfilt]
      rfl
  | nil =>
    cases sc with
    | some u =>
      refine ⟨?_, ?_, fun hne => absurd rfl hne⟩
      · unfold fcorl_select
        rw [hfilt]
        rfl
      · unfold fcorl_select
        rw [hfilt]
        rfl
    | none =>
      cases rl with
      | cons r rs =>
        refine ⟨?_, ?_, fun hne => absurd rfl hne⟩
        · unfold fcorl_select
          rw [hfilt]
          rfl
        · unfold fcorl_select
          rw [hfilt]
          rfl
      | nil =>
        refine ⟨?_, ?_, fun hne => absurd rfl hne⟩
        · unfold fcorl_select
          rw [hfilt]
          cases sr <;> rfl
        · unfold fcorl_select
          rw [hfilt]
          cases sr <;> rfl

theorem c6_amended_probe_condition_witness :
    fcorl_select ["https://x.edu/football/coaches"] [] none none =
      ⟨(["https://x.edu/football/coaches"].filter isFootballCoachesUrl).headD "Not found",
        false, false⟩ :=
  (c6_amended_probe_condition ["https://x.edu/football/coaches"] [] none none).2.2
    (by decide)

/-! ## C1 — exceptions at the pipeline boundary -/

/-- C1 (code bug): the claim's fetch-failure scenario does hold — when the
initial fetch fails, `scrape_school` returns
`{school_data, coaches: [], success: False}` without raising (first
conjunct) — but "never lets an exception escape" is false: in a world
where every stage succeeds and an extracted coach has a profile URL whose
page fetches, `scrape_school` raises `AttributeError`, because
`NCAAScraper.__init__` never assigns `self.ai_parser` (the assignment is
commented out) while `scrape_coach_bios` evaluates
`self.ai_parser.extract_coach_bio` outside any `try/except`. -/
theorem c1_scrape_school_code_bug :
    scrape_school (fun _ => none) demoSchool = .ok ⟨demoSchool, [], false⟩ ∧
    scrape_school goodFetch demoSchool = .error .attributeError :=
  ⟨by decide, by decide⟩

/-! ## C7 — probe acceptance and short-circuit -/

/-- The probe loop returns `some u` exactly when the pattern list splits as
`pre ++ p :: post` with `u` the candidate built from `p`, `p`'s candidate
accepted, and every earlier candidate rejected (network errors included,
since `probeOk` is `false` on them). -/
theorem firstProbe_iff (http : HttpOracle) (url : String) (kws : List String) :
    ∀ (pats : List String) (u : String),
      firstProbe http url kws pats = some u ↔
        ∃ pre p post, pats = pre ++ p :: post ∧ u = urljoin url p ∧
          probeOk http (urljoin url p) kws = true ∧
          ∀ q ∈ pre, probeOk http (urljoin url q) kws = false := by
  intro pats
  induction pats with
  | nil =>
    intro u
    constructor
    · intro h
      exact absurd h (by simp [firstProbe])
    · rintro ⟨pre, p, post, hsplit, -, -, -⟩
      exact absurd hsplit (by simp)
  | cons p0 rest ih =>
    intro u
    constructor
    · intro h
      unfold firstProbe at h
      split at h
      · rename_i hok
        exact ⟨[], p0, rest, rfl, (Option.some.inj h).symm, hok, by simp⟩
      · rename_i hnot
        rcases (ih u).mp h with ⟨pre, p, post, hsplit, hu, hok, hpre⟩
        refine ⟨p0 :: pre, p, post, by rw [hsplit]; rfl, hu, hok, ?_⟩
        intro q hq
        rcases List.mem_cons.mp hq with rfl | hq2
        · exact Bool.eq_false_iff.mpr hnot
        · exact hpre q hq2
    · rintro ⟨pre, p, post, hsplit, hu, hok, hpre⟩
      cases pre with
      | nil =>
        simp only [List.nil_append, List.cons.injEq] at hsplit
        obtain ⟨rfl, rfl⟩ := hsplit
        simp [firstProbe, hok, hu]
      | cons q pre2 =>
        simp only [List.cons_append, List.cons.injEq] at hsplit
        obtain ⟨rfl, rfl⟩ := hsplit
        have h0 : probeOk http (urljoin url p0) kws = false := hpre p0 (by simp)
        simp only [firstProbe, h0, Bool.false_eq_true, if_false]
        exact (ih u).mpr ⟨pre2, p, post, rfl, hu, hok, fun q hq => hpre q (by simp [hq])⟩

/-- C7: each probe (coaches and roster) returns the first candidate URL,
in the fixed suffix order, whose response has status exactly 200 and whose
lower-cased body contains a corroborating keyword; every earlier candidate
was a non-match — a network error counting as a non-match for that
candidate only — and probing stops at that first success. -/
theorem c7_probe_first_success (http : HttpOracle) (url u : String) :
    (get_simulate_coaches_link http url = some u ↔
      ∃ pre p post, coachesProbePatterns = pre ++ p :: post ∧ u = urljoin url p ∧
        probeOk http (urljoin url p) coachesProbeKeywords = true ∧
        ∀ q ∈ pre, probeOk http (urljoin url q) coachesProbeKeywords = false) ∧
    (get_simulate_roster_link http url = some u ↔
      ∃ pre p post, rosterProbePatterns = pre ++ p :: post ∧ u = urljoin url p ∧
        probeOk http (urljoin url p) rosterProbeKeywords = true ∧
        ∀ q ∈ pre, probeOk http (urljoin url q) rosterProbeKeywords = false) :=
  ⟨firstProbe_iff http url coachesProbeKeywords coachesProbePatterns u,
   firstProbe_iff http url rosterProbeKeywords rosterProbePatterns u⟩

/-- Probe world: `/coaches` answers 404, `/coaching-staff` errors out,
`/football/coaches` answers 200 with a corroborating body. -/
def demoHttp : HttpOracle := fun u =>
  if u == "https://x.edu/coaches" then some (404, "nope")
  else if u == "https://x.edu/coaching-staff" then none
  else if u == "https://x.edu/football/coaches" then some (200, "Our Coaching Staff")
  else none

theorem c7_probe_first_success_witness :
    ∃ pre p post, coachesProbePatterns = pre ++ p :: post ∧
      "https://x.edu/football/coaches" = urljoin "https://x.edu" p ∧
      probeOk demoHttp (urljoin "https://x.edu" p) coachesProbeKeywords = true ∧
      ∀ q ∈ pre, probeOk demoHttp (urljoin "https://x.edu" q) coachesProbeKeywords = false :=
  ((c7_probe_first_success demoHttp "https://x.edu" "https://x.edu/football/coaches").1).mp
    (by decide)

/-! ## C8 — fetcher retry behaviour -/

theorem backoff_cons (attempt n : Nat) :
    2 ^ attempt :: (List.range n).map (fun k => 2 ^ (attempt + 1 + k)) =
      (List.range (n + 1)).map (fun k => 2 ^ (attempt + k)) := by
  rw [List.range_succ_eq_map, List.map_cons, List.map_map]
  simp only [List.cons.injEq]
  refine ⟨by simp, List.map_congr_left fun a _ => ?_⟩
  simp only [Function.comp_apply]
  congr 1
  omega

/-- When every attempt up to `m` fails, the loop uses all `m` attempts,
sleeps `2 ^ attempt` between consecutive ones, and returns `none`. -/
theorem get_page_go_all_fail (net : Nat → NetOutcome) (m : Nat) :
    ∀ (fuel attempt : Nat), attempt + fuel = m →
      (∀ i, attempt ≤ i → i < m → netFails (net i) = true) →
      get_page_go net m fuel attempt =
        (none, (List.range (m - 1 - attempt)).map (fun k => 2 ^ (attempt + k))) := by
  intro fuel
  induction fuel with
  | zero =>
    intro attempt hsum _
    have h0 : m - 1 - attempt = 0 := by omega
    rw [h0]
    rfl
  | succ fuel ih =>
    intro attempt hsum hfail
    have hlt : attempt < m := by omega
    unfold get_page_go
    split
    · rename_i st body hnet
      have hrs : raisesForStatus st = true := by
        have hf := hfail attempt le_rfl hlt
        rw [hnet] at hf
        exact hf
      rw [if_pos hrs]
      by_cases hlast : attempt = m - 1
      · rw [if_pos hlast]
        have h0 : m - 1 - attempt = 0 := by omega
        rw [h0]
        rfl
      · rw [if_neg hlast]
        rw [ih (attempt + 1) (by omega) (fun i hi him => hfail i (by omega) him)]
        have h1 : m - 1 - attempt = (m - 1 - (attempt + 1)) + 1 := by omega
        rw [h1, ← backoff_cons]
    · by_cases hlast : attempt = m - 1
      · rw [if_pos hlast]
        have h0 : m - 1 - attempt = 0 := by omega
        rw [h0]
        rfl
      · rw [if_neg hlast]
        rw [ih (attempt + 1) (by omega) (fun i hi him => hfail i (by omega) him)]
        have h1 : m - 1 - attempt = (m - 1 - (attempt + 1)) + 1 := by omega
        rw [h1, ← backoff_cons]

/-- When attempt `k` is the first whose outcome is a response that
`raise_for_status` accepts, the loop returns that body after `k` failures
and `k` backoff sleeps. -/
theorem get_page_go_success (net : Nat → NetOutcome) (m : Nat) :
    ∀ (fuel attempt k st : Nat) (b : String), attempt + fuel = m → attempt ≤ k → k < m →
      (∀ j, attempt ≤ j → j < k → netFails (net j) = true) →
      net k = NetOutcome.resp st b → raisesForStatus st = false →
      get_page_go net m fuel attempt =
        (some b, (List.range (k - attempt)).map (fun a => 2 ^ (attempt + a))) := by
  intro fuel
  induction fuel with
  | zero =>
    intro attempt k st b hsum hak hkm _ _ _
    exact absurd hkm (by omega)
  | succ fuel ih =>
    intro attempt k st b hsum hak hkm hfail hk hst
    unfold get_page_go
    split
    · rename_i st2 b2 hnet
      by_cases heq : attempt = k
      · subst heq
        rw [hk] at hnet
        cases hnet
        rw [if_neg (by rw [hst]; exact Bool.false_ne_true)]
        have h0 : attempt - attempt = 0 := by omega
        rw [h0]
        rfl
      · have hak2 : attempt < k := by omega
        have hf := hfail attempt le_rfl hak2
        have hlast : attempt ≠ m - 1 := by omega
        have hrec := ih (attempt + 1) k st b (by omega) (by omega) hkm
          (fun j h1 h2 => hfail j (by omega) h2) hk hst
        have hrs : raisesForStatus st2 = true := by
          rw [hnet] at hf
          exact hf
        rw [if_pos hrs, if_neg hlast, hrec]
        have h1 : k - attempt = (k - (attempt + 1)) + 1 := by omega
        rw [h1, ← backoff_cons]
    · rename_i hnet
      have heq : attempt ≠ k := by
        intro hh
        rw [hh, hk] at hnet
        cases hnet
      have hak2 : attempt < k := by omega
      have hlast : attempt ≠ m - 1 := by omega
      have hrec := ih (attempt + 1) k st b (by omega) (by omega) hkm
        (fun j h1 h2 => hfail j (by omega) h2) hk hst
      rw [if_neg hlast, hrec]
      have h1 : k - attempt = (k - (attempt + 1)) + 1 := by omega
      rw [h1, ← backoff_cons]

/-- C8 (amended): `get_page` treats statuses 400–599 as failure
(`raise_for_status` semantics — other non-2xx statuses such as 304 are
returned as success, see the counterexample); on failure it keeps retrying
with `2 ^ attempt` backoff sleeps between consecutive attempts until
`max_retries` total attempts are used, and then returns `none` — a value,
not an exception (the embedding is a total function because the source
catches every `RequestException`). -/
theorem c8_amended_fetch_retry (net : Nat → NetOutcome) (m : Nat) :
    ((∀ i, i < m → netFails (net i) = true) →
      get_page net m = (none, (List.range (m - 1)).map (fun a => 2 ^ a))) ∧
    (∀ k st b, k < m → (∀ j, j < k → netFails (net j) = true) →
      net k = NetOutcome.resp st b → raisesForStatus st = false →
      get_page net m = (some b, (List.range k).map (fun a => 2 ^ a))) := by
  constructor
  · intro h
    have hg := get_page_go_all_fail net m m 0 (by omega) (fun i _ him => h i him)
    simpa [get_page] using hg
  · intro k st b hk hfail hnet hst
    have hg := get_page_go_success net m m 0 k st b (by omega) (by omega) hk
      (fun j _ hj => hfail j hj) hnet hst
    simpa [get_page] using hg

/-- C8 counterexample: a final status of 304 is outside 2xx, yet
`get_page` returns the body as a success on the first attempt —
`raise_for_status` only raises for 400–599, refuting "any HTTP status
outside 2xx is treated as a failure". -/
theorem c8_counterexample :
    get_page (fun _ => NetOutcome.resp 304 "cached") 1 = (some "cached", []) ∧
    ¬ (200 ≤ 304 ∧ 304 < 300) := by decide

/-- Network world for the retry witness: error, then 500, then 200. -/
def demoNet : Nat → NetOutcome := fun i =>
  if i == 0 then NetOutcome.err
  else if i == 1 then NetOutcome.resp 500 "oops"
  else NetOutcome.resp 200 "page"

theorem c8_amended_fetch_retry_witness :
    get_page demoNet 3 = (some "page", [1, 2]) :=
  (c8_amended_fetch_retry demoNet 3).2 2 200 "page" (by decide) (by decide)
    (by decide) (by decide)

theorem c10_stamped_fields_witness :
    demoStamped.sport = some "Football" ∧ demoStamped.school_id = demoSchool.school_id ∧
    demoStamped.school_name = some demoSchool.nameStr ∧
    demoStamped.division = demoSchool.division ∧
    demoStamped.conference = demoSchool.conference :=
  c10_stamped_fields goodFetch demoSchool demoStamped (by decide)

end Scraper
